import Mathlib

/-!
Verification of the process/protocol management core of an editor
integration for the merlin analysis tool (src/merlin/process.py and
src/merlin/helpers.py), via a shallow embedding of the Python source.

Python values that flow through the protocol (JSON payloads, tracking
keys, settings entries) are embedded as the inductive type `JVal`.
Stateful methods of `MerlinProcess` become explicit state passing:
the command history is a `List HEntry`, the verbosity counter is a
`VState`. Library routines of the Python runtime that the source calls
(`json.loads`, dictionary lookup, truthiness) are modelled on the value
shapes the source exercises.
-/

namespace SublimeMerlin

/-- Embeds the Python/JSON values that appear in the protocol:
null, booleans, integers, strings, arrays, objects. -/
inductive JVal where
  | null : JVal
  | jbool : Bool → JVal
  | jint : Int → JVal
  | jstr : String → JVal
  | jarr : List JVal → JVal
  | jobj : List (String × JVal) → JVal

mutual

def JVal.decEq : (a b : JVal) → Decidable (a = b)
  | JVal.null, JVal.null => isTrue rfl
  | JVal.null, JVal.jbool _ => isFalse (fun h => JVal.noConfusion h)
  | JVal.null, JVal.jint _ => isFalse (fun h => JVal.noConfusion h)
  | JVal.null, JVal.jstr _ => isFalse (fun h => JVal.noConfusion h)
  | JVal.null, JVal.jarr _ => isFalse (fun h => JVal.noConfusion h)
  | JVal.null, JVal.jobj _ => isFalse (fun h => JVal.noConfusion h)
  | JVal.jbool _, JVal.null => isFalse (fun h => JVal.noConfusion h)
  | JVal.jbool a, JVal.jbool b =>
    if h : a = b then isTrue (by rw [h])
    else isFalse (fun hh => h (by injection hh))
  | JVal.jbool _, JVal.jint _ => isFalse (fun h => JVal.noConfusion h)
  | JVal.jbool _, JVal.jstr _ => isFalse (fun h => JVal.noConfusion h)
  | JVal.jbool _, JVal.jarr _ => isFalse (fun h => JVal.noConfusion h)
  | JVal.jbool _, JVal.jobj _ => isFalse (fun h => JVal.noConfusion h)
  | JVal.jint _, JVal.null => isFalse (fun h => JVal.noConfusion h)
  | JVal.jint _, JVal.jbool _ => isFalse (fun h => JVal.noConfusion h)
  | JVal.jint a, JVal.jint b =>
    if h : a = b then isTrue (by rw [h])
    else isFalse (fun hh => h (by injection hh))
  | JVal.jint _, JVal.jstr _ => isFalse (fun h => JVal.noConfusion h)
  | JVal.jint _, JVal.jarr _ => isFalse (fun h => JVal.noConfusion h)
  | JVal.jint _, JVal.jobj _ => isFalse (fun h => JVal.noConfusion h)
  | JVal.jstr _, JVal.null => isFalse (fun h => JVal.noConfusion h)
  | JVal.jstr _, JVal.jbool _ => isFalse (fun h => JVal.noConfusion h)
  | JVal.jstr _, JVal.jint _ => isFalse (fun h => JVal.noConfusion h)
  | JVal.jstr a, JVal.jstr b =>
    if h : a = b then isTrue (by rw [h])
    else isFalse (fun hh => h (by injection hh))
  | JVal.jstr _, JVal.jarr _ => isFalse (fun h => JVal.noConfusion h)
  | JVal.jstr _, JVal.jobj _ => isFalse (fun h => JVal.noConfusion h)
  | JVal.jarr _, JVal.null => isFalse (fun h => JVal.noConfusion h)
  | JVal.jarr _, JVal.jbool _ => isFalse (fun h => JVal.noConfusion h)
  | JVal.jarr _, JVal.jint _ => isFalse (fun h => JVal.noConfusion h)
  | JVal.jarr _, JVal.jstr _ => isFalse (fun h => JVal.noConfusion h)
  | JVal.jarr xs, JVal.jarr ys =>
    match JVal.decEqList xs ys with
    | isTrue h => isTrue (by rw [h])
    | isFalse h => isFalse (fun hh => h (by injection hh))
  | JVal.jarr _, JVal.jobj _ => isFalse (fun h => JVal.noConfusion h)
  | JVal.jobj _, JVal.null => isFalse (fun h => JVal.noConfusion h)
  | JVal.jobj _, JVal.jbool _ => isFalse (fun h => JVal.noConfusion h)
  | JVal.jobj _, JVal.jint _ => isFalse (fun h => JVal.noConfusion h)
  | JVal.jobj _, JVal.jstr _ => isFalse (fun h => JVal.noConfusion h)
  | JVal.jobj _, JVal.jarr _ => isFalse (fun h => JVal.noConfusion h)
  | JVal.jobj fs, JVal.jobj gs =>
    match JVal.decEqFields fs gs with
    | isTrue h => isTrue (by rw [h])
    | isFalse h => isFalse (fun hh => h (by injection hh))

def JVal.decEqList : (xs ys : List JVal) → Decidable (xs = ys)
  | [], [] => isTrue rfl
  | [], _ :: _ => isFalse (fun h => List.noConfusion h)
  | _ :: _, [] => isFalse (fun h => List.noConfusion h)
  | x :: xs, y :: ys =>
    match JVal.decEq x y with
    | isFalse h => isFalse (fun hh => h (by injection hh))
    | isTrue h1 =>
      match JVal.decEqList xs ys with
      | isTrue h2 => isTrue (by rw [h1, h2])
      | isFalse h2 => isFalse (fun hh => h2 (by injection hh))

def JVal.decEqFields : (xs ys : List (String × JVal)) → Decidable (xs = ys)
  | [], [] => isTrue rfl
  | [], _ :: _ => isFalse (fun h => List.noConfusion h)
  | _ :: _, [] => isFalse (fun h => List.noConfusion h)
  | (k1, v1) :: xs, (k2, v2) :: ys =>
    if hk : k1 = k2 then
      match JVal.decEq v1 v2 with
      | isFalse h => isFalse (fun hh => h (by injection hh with h1 h2; injection h1))
      | isTrue hv =>
        match JVal.decEqFields xs ys with
        | isTrue h2 => isTrue (by rw [hk, hv, h2])
        | isFalse h2 => isFalse (fun hh => h2 (by injection hh))
    else isFalse (fun hh => hk (by injection hh with h1 h2; injection h1))

end

instance : DecidableEq JVal := JVal.decEq

/-- Python truthiness on the embedded values: None, False, 0, the empty
string, the empty list and the empty dict are falsy. -/
def jTruthy : JVal → Bool
  | JVal.null => false
  | JVal.jbool b => b
  | JVal.jint n => n != 0
  | JVal.jstr s => s != ""
  | JVal.jarr xs => !xs.isEmpty
  | JVal.jobj fs => !fs.isEmpty

/-- Python iterability of the embedded values: strings, lists and dicts
can appear in a for loop; None, booleans and integers raise TypeError. -/
def jIterable : JVal → Bool
  | JVal.jstr _ => true
  | JVal.jarr _ => true
  | JVal.jobj _ => true
  | _ => false

/-- Dictionary lookup. Python dicts built by the JSON decoder keep the
last binding of a repeated key, so the reversed association list is
searched front to back. -/
def jget (fs : List (String × JVal)) (k : String) : Option JVal :=
  fs.reverse.lookup k

/-! ### Model of the json.loads library routine

The source hands the raw standard output text of the tool to
`json.loads` (process.py line 185). The decoder is modelled on the JSON
subset the protocol exercises: null, booleans, integers, strings with
the simple escapes, arrays and objects. Invalid text yields `none`,
embedding the JSONDecodeError the Python routine raises. -/

def isWs (c : Char) : Bool :=
  c = ' ' || c = '\t' || c = '\n' || c = '\r'

def skipWs : List Char → List Char
  | [] => []
  | c :: cs => if isWs c then skipWs cs else c :: cs

def lbrace : Char := Char.ofNat 123

def rbrace : Char := Char.ofNat 125

/-- Reads the body of a JSON string after the opening quote, handling
the escapes for quote, backslash, slash, newline and tab. -/
def parseStrChars : List Char → Option (List Char × List Char)
  | [] => none
  | '"' :: rest => some ([], rest)
  | '\\' :: rest =>
    match rest with
    | [] => none
    | e :: rest2 =>
      let c? : Option Char :=
        if e = '"' then some '"'
        else if e = '\\' then some '\\'
        else if e = '/' then some '/'
        else if e = 'n' then some '\n'
        else if e = 't' then some '\t'
        else none
      match c? with
      | none => none
      | some c => (parseStrChars rest2).map (fun p => (c :: p.1, p.2))
  | c :: rest => (parseStrChars rest).map (fun p => (c :: p.1, p.2))

def takeDigits : List Char → List Char × List Char
  | [] => ([], [])
  | c :: cs =>
    if c.isDigit then
      let p := takeDigits cs
      (c :: p.1, p.2)
    else ([], c :: cs)

def digitsVal (ds : List Char) : Nat :=
  ds.foldl (fun acc c => acc * 10 + (c.toNat - 48)) 0

mutual

def parseVal : Nat → List Char → Option (JVal × List Char)
  | 0, _ => none
  | fuel + 1, input =>
    match skipWs input with
    | [] => none
    | 'n' :: 'u' :: 'l' :: 'l' :: r => some (JVal.null, r)
    | 't' :: 'r' :: 'u' :: 'e' :: r => some (JVal.jbool true, r)
    | 'f' :: 'a' :: 'l' :: 's' :: 'e' :: r => some (JVal.jbool false, r)
    | '"' :: r => (parseStrChars r).map (fun p => (JVal.jstr (String.mk p.1), p.2))
    | '[' :: r =>
      match skipWs r with
      | ']' :: r2 => some (JVal.jarr [], r2)
      | r2 => (parseElems fuel r2).map (fun p => (JVal.jarr p.1, p.2))
    | '-' :: r =>
      match takeDigits r with
      | ([], _) => none
      | (ds, r2) => some (JVal.jint (-(Int.ofNat (digitsVal ds))), r2)
    | c :: r =>
      if c = lbrace then
        match skipWs r with
        | [] => none
        | c2 :: r2 =>
          if c2 = rbrace then some (JVal.jobj [], r2)
          else (parseMembers fuel (c2 :: r2)).map (fun p => (JVal.jobj p.1, p.2))
      else if c.isDigit then
        match takeDigits (c :: r) with
        | ([], _) => none
        | (ds, r2) => some (JVal.jint (Int.ofNat (digitsVal ds)), r2)
      else none

def parseElems : Nat → List Char → Option (List JVal × List Char)
  | 0, _ => none
  | fuel + 1, input =>
    match parseVal fuel input with
    | none => none
    | some (v, r) =>
      match skipWs r with
      | ',' :: r2 => (parseElems fuel r2).map (fun p => (v :: p.1, p.2))
      | ']' :: r2 => some ([v], r2)
      | _ => none

def parseMembers : Nat → List Char → Option (List (String × JVal) × List Char)
  | 0, _ => none
  | fuel + 1, input =>
    match skipWs input with
    | '"' :: r =>
      match parseStrChars r with
      | none => none
      | some (kcs, r2) =>
        match skipWs r2 with
        | ':' :: r3 =>
          match parseVal fuel r3 with
          | none => none
          | some (v, r4) =>
            match skipWs r4 with
            | [] => none
            | ',' :: r5 => (parseMembers fuel r5).map (fun p => ((String.mk kcs, v) :: p.1, p.2))
            | c :: r5 =>
              if c = rbrace then some ([(String.mk kcs, v)], r5) else none
        | _ => none
    | _ => none

end

/-- Models the json.loads call of process.py line 185: decode the whole
text, allowing surrounding whitespace; any leftover input or parse
failure is the JSONDecodeError case, embedded as `none`. -/
def json_loads (s : String) : Option JVal :=
  let cs := s.toList
  match parseVal (cs.length + 1) cs with
  | some (v, rest) => if skipWs rest = [] then some v else none
  | none => none

/-! ### fmtpos (helpers.py lines 8 to 18)

The Python argument is None, a dict, a tuple or list, or anything else;
`PosArg` embeds those shapes with integer coordinates, the shapes the
call sites supply. `FmtRes` separates the normal return from the two
distinct Python exceptions the body can raise: the ValueError raised
explicitly (and by unpacking a sequence of the wrong length), and the
KeyError raised by a dict subscript on a missing key. -/

inductive PosArg where
  | pynone : PosArg
  | pydict : List (String × Int) → PosArg
  | pyseq : List Int → PosArg
  | pyother : PosArg
deriving DecidableEq, Repr

inductive FmtRes where
  | ok : String → FmtRes
  | valueError : String → FmtRes
  | keyError : String → FmtRes
deriving DecidableEq, Repr

/-- The message of the ValueError raised on an unacceptable shape,
paraphrased without punctuation that the format cannot carry. -/
def fmtpos_msg : String :=
  "fmtpos takes None, a pair, or a mapping with line and col"

/-- Embeds fmtpos: None maps to the literal end, a dict is subscripted
at line then col, a tuple or list is unpacked as a pair, anything else
raises the explicit ValueError; the result string is line:col. -/
def fmtpos : PosArg → FmtRes
  | PosArg.pynone => FmtRes.ok "end"
  | PosArg.pydict fs =>
    match fs.lookup "line" with
    | none => FmtRes.keyError "line"
    | some line =>
      match fs.lookup "col" with
      | none => FmtRes.keyError "col"
      | some col => FmtRes.ok (toString line ++ ":" ++ toString col)
  | PosArg.pyseq xs =>
    match xs with
    | [line, col] => FmtRes.ok (toString line ++ ":" ++ toString col)
    | _ => FmtRes.valueError "unpack"
  | PosArg.pyother => FmtRes.valueError fmtpos_msg

/-- The encoding of a two element position, the always succeeding case
of fmtpos that the call sites of process.py use. -/
def fmtpos_pair (line col : Int) : String :=
  toString line ++ ":" ++ toString col

/-! ### Verbosity counter (process.py lines 88 to 98)

The Python attribute holds the pair (None, None) after clear and
(key, count) afterwards; `VState` embeds exactly those reachable
values. -/

def VState : Type := Option (JVal × Int)

/-- The key component of the stored counter. -/
def vKey (st : VState) : Option JVal := st.map Prod.fst

/-- The literal True supplied as the tracking key stands for the call
arguments themselves (process.py lines 90 to 91). -/
def resolve_key (key : JVal) (args : List String) : JVal :=
  if key = JVal.jbool true then JVal.jarr (args.map JVal.jstr) else key

/-- Embeds track_verbosity: a falsy key contributes no tokens and
leaves the counter alone; a truthy key is resolved, then the counter
is incremented when the stored key equals it and reset to zero
otherwise, and the tokens -verbosity followed by the count are
returned. -/
def track_verbosity (st : VState) (key : JVal) (args : List String) :
    VState × List String :=
  if jTruthy key then
    let k := resolve_key key args
    match st with
    | some (k0, n) =>
      if k0 = k then (some (k, n + 1), ["-verbosity", toString (n + 1)])
      else (some (k, 0), ["-verbosity", toString (0 : Int)])
    | none => (some (k, 0), ["-verbosity", toString (0 : Int)])
  else (st, [])

/-! ### Command history (process.py lines 80 to 86) -/

/-- One history entry: the command line, the response text and the
error stream text, the latter two None while the command is pending. -/
def HEntry : Type := List String × Option String × Option String

instance : DecidableEq HEntry := by
  unfold HEntry
  infer_instance

/-- Embeds store_last_command: when the front entry is the pending
record of the same command it is overwritten in place, otherwise the
new record is inserted at the front and the oldest entry is dropped
once the length passes five. -/
def store_last_command (hist : List HEntry) (command : List String)
    (response errors : Option String) : List HEntry :=
  if hist.head? = some (command, none, none) then
    (command, response, errors) :: hist.tail
  else if ((command, response, errors) :: hist).length > 5 then
    ((command, response, errors) :: hist).dropLast
  else
    (command, response, errors) :: hist

/-! ### exec (process.py lines 100 to 138)

The spawn and the communication with the child process are outside the
embedding; `ProcOutcome` supplies their result as an oracle: either the
captured output and error text, or the OSError and FileNotFoundError
case in which the executable cannot be started. The binary path is
taken as already resolved, binary path resolution being out of scope
of the claims. -/

inductive ProcOutcome where
  | ok : String → String → ProcOutcome
  | spawnFail : ProcOutcome
deriving DecidableEq, Repr

inductive ExecRes where
  | ok : String → ExecRes
  | oserror : ExecRes
deriving DecidableEq, Repr

/-- Embeds exec: the command line is the binary followed by the
arguments; a pending history record is stored before the spawn; on
spawn failure the caught OSError is re-raised after a diagnostic
print, leaving the pending record in place; on success the record is
completed with the response and error text and the response is
returned. -/
def exec_model (hist : List HEntry) (binary_path : String)
    (arguments : List String) (_inp : String) (proc : ProcOutcome) :
    List HEntry × ExecRes :=
  let command := binary_path :: arguments
  let hist1 := store_last_command hist command none none
  match proc with
  | ProcOutcome.spawnFail => (hist1, ExecRes.oserror)
  | ProcOutcome.ok out err =>
      (store_last_command hist1 command (some out) (some err), ExecRes.ok out)

/-! ### command (process.py lines 144 to 198)

The argument list construction (lines 150 to 181) is embedded as
`command_cmdline`, threading the verbosity counter, and the decoding
of the response (lines 185 to 198) as `command_dispatch` and
`command_of_output`. Optional list parameters default to None in
Python and are iterated through the idiom x or [], under which None
and the empty list contribute the same tokens, so they are embedded
as plain lists. -/

/-- Embeds a for loop extending the command line with a flag and value
pair per element (the loops of process.py lines 159 to 172). -/
def tokGroup (flag : String) : List String → List String
  | [] => []
  | x :: xs => flag :: x :: tokGroup flag xs

/-- Embeds the construction of cmdline in command, one let per extend
of the source, returning the updated verbosity counter with the
finished argument list. -/
def command_cmdline (st : VState) (args : List String)
    (filename : Option String)
    (extensions packages dot_merlins build_path source_path : List String)
    (debug : Bool) (flags other_flags : List String) (track : JVal) :
    VState × List String :=
  let cmdline := ["server"] ++ args
  let cmdline := cmdline ++
    (match filename with
     | some f => if f = "" then [] else ["-filename", f]
     | none => [])
  let p := track_verbosity st track args
  let cmdline := cmdline ++ p.2
  let cmdline := extensions.foldl (fun acc e => acc ++ ["-extension", e]) cmdline
  let cmdline := packages.foldl (fun acc pkg => acc ++ ["-package", pkg]) cmdline
  let cmdline := dot_merlins.foldl (fun acc dm => acc ++ ["-dot-merlin", dm]) cmdline
  let cmdline := build_path.foldl (fun acc pa => acc ++ ["-build-path", pa]) cmdline
  let cmdline := source_path.foldl (fun acc pa => acc ++ ["-source-path", pa]) cmdline
  let cmdline := cmdline ++ (if debug then ["-log-file", "-"] else [])
  let cmdline := cmdline ++ flags
  let cmdline := cmdline ++ other_flags
  (p.1, cmdline)

/-- The outcome of the decoding tail of command: the value returned on
class return, the implicit None returned on an unrecognized class, the
three classified exceptions, and the three unclassified Python
exceptions the body can raise: the JSONDecodeError of json.loads, the
KeyError of a missing envelope field, and the TypeError of subscripting
or iterating a value of the wrong shape. -/
inductive CmdOutcome where
  | ret : JVal → CmdOutcome
  | retNone : CmdOutcome
  | failureRaised : JVal → CmdOutcome
  | errorRaised : JVal → CmdOutcome
  | merlinExceptionRaised : JVal → CmdOutcome
  | jsonDecodeError : CmdOutcome
  | keyErrorRaised : String → CmdOutcome
  | typeErrorRaised : CmdOutcome
deriving DecidableEq

/-- Embeds process.py lines 186 to 198 on the decoded value: subscript
class, value and notifications in that order, iterate the
notifications for logging, then dispatch on the class string; a class
equal to none of the four strings falls off the end of the method and
returns None. -/
def command_dispatch : JVal → CmdOutcome
  | JVal.jobj fs =>
    (match jget fs "class" with
     | none => CmdOutcome.keyErrorRaised "class"
     | some cls =>
       match jget fs "value" with
       | none => CmdOutcome.keyErrorRaised "value"
       | some content =>
         match jget fs "notifications" with
         | none => CmdOutcome.keyErrorRaised "notifications"
         | some notifs =>
           if jIterable notifs then
             if cls = JVal.jstr "return" then CmdOutcome.ret content
             else if cls = JVal.jstr "failure" then CmdOutcome.failureRaised content
             else if cls = JVal.jstr "error" then CmdOutcome.errorRaised content
             else if cls = JVal.jstr "exception" then CmdOutcome.merlinExceptionRaised content
             else CmdOutcome.retNone
           else CmdOutcome.typeErrorRaised)
  | _ => CmdOutcome.typeErrorRaised

/-- Embeds process.py lines 185 to 198 on the raw standard output
text: json.loads then the dispatch; a failing parse is the
JSONDecodeError case, no handler in the source intercepting it. -/
def command_of_output (raw : String) : CmdOutcome :=
  match json_loads raw with
  | none => CmdOutcome.jsonDecodeError
  | some j => command_dispatch j

/-! ### MerlinView settings mutations (process.py lines 243 to 308)

The view settings store is embedded as a record of the four mutable
keys the claims touch; a key holding None or absent is `none`.
`PyExc` carries the unclassified Python exceptions these methods can
raise. -/

structure ViewSettings where
  packages : Option (List String)
  buildpath : Option (List String)
  sourcepath : Option (List String)
  extensions : Option (List String)
deriving DecidableEq, Repr

inductive PyExc where
  | attributeError : String → PyExc
  | typeError : PyExc
deriving DecidableEq, Repr

/-- Embeds set_packages (lines 243 to 245): one settings set call,
returning None. -/
def set_packages (s : ViewSettings) (packages : List String) : ViewSettings :=
  { s with packages := some packages }

/-- Embeds list_build_path (lines 258 to 259). -/
def list_build_path (s : ViewSettings) : List String :=
  s.buildpath.getD []

/-- Embeds list_source_path (lines 266 to 267). -/
def list_source_path (s : ViewSettings) : List String :=
  s.sourcepath.getD []

/-- Embeds add_build_path (lines 261 to 264). The body builds the
extended list, but its final statement reads self.view.settings.set:
an attribute access on the bound method object settings rather than on
the store returned by calling it, so Python raises AttributeError and
the store is never written. -/
def add_build_path (s : ViewSettings) (path : String) : Except PyExc ViewSettings :=
  let _paths := list_build_path s ++ [path]
  Except.error (PyExc.attributeError "function object has no attribute set")

/-- Embeds add_source_path (lines 269 to 272), which has the same
erroneous self.view.settings.set access as add_build_path. -/
def add_source_path (s : ViewSettings) (path : String) : Except PyExc ViewSettings :=
  let _paths := list_source_path s ++ [path]
  Except.error (PyExc.attributeError "function object has no attribute set")

/-- Embeds extension_enable (lines 296 to 301): read the extensions
key, append each ext not already present, write the key back. When the
key holds None and there is at least one ext to test, the membership
test on None raises TypeError; with no exts the loop body never runs
and None is written back unchanged. -/
def extension_enable (s : ViewSettings) (exts : List String) :
    Except PyExc ViewSettings :=
  match s.extensions with
  | none =>
    match exts with
    | [] => Except.ok { s with extensions := none }
    | _ => Except.error PyExc.typeError
  | some merlin_exts =>
    let merlin_exts := exts.foldl (fun acc e => if e ∈ acc then acc else acc ++ [e]) merlin_exts
    Except.ok { s with extensions := some merlin_exts }

/-- Embeds extension_disable (lines 303 to 308): remove the first
occurrence of each listed ext. Python list remove on an absent element
raises ValueError, but the membership guard prevents that; remove on
None raises TypeError as in extension_enable. -/
def extension_disable (s : ViewSettings) (exts : List String) :
    Except PyExc ViewSettings :=
  match s.extensions with
  | none =>
    match exts with
    | [] => Except.ok { s with extensions := none }
    | _ => Except.error PyExc.typeError
  | some merlin_exts =>
    let merlin_exts := exts.foldl (fun acc e => acc.erase e) merlin_exts
    Except.ok { s with extensions := some merlin_exts }

/-- Embeds complete_cursor (process.py lines 225 to 231) composed with
the builder through MerlinView.command (lines 209 to 223): the verb
tokens complete-prefix, -position with the encoded pair, -prefix with
the base, -doc from the with doc setting, then the shared builder with
the tracking key True. -/
def complete_cursor_cmdline (st : VState) (with_doc : JVal) (base : String)
    (line col : Int) (filename : Option String)
    (extensions packages dot_merlins build_path source_path : List String)
    (debug : Bool) (flags other_flags : List String) : VState × List String :=
  let cmd := ["complete-prefix"] ++
    ["-position", fmtpos_pair line col, "-prefix", base] ++
    ["-doc", if jTruthy with_doc then "y" else "n"]
  command_cmdline st cmd filename extensions packages dot_merlins build_path
    source_path debug flags other_flags (JVal.jbool true)

/-! ### Group shapes for the order statement

The spec describes the built argument list as a fixed sequence of
groups; these definitions follow the words of the spec (section 4.1)
and are compared against `command_cmdline`, which embeds the source. -/

/-- The filename group of the spec: the tokens -filename path when a
filename is present (a present but empty path being falsy contributes
nothing, as in the source guard). -/
def fileGroup : Option String → List String
  | some f => if f = "" then [] else ["-filename", f]
  | none => []

/-- The debug group of the spec: -log-file - when debug logging is
requested. -/
def debugGroup (debug : Bool) : List String :=
  if debug then ["-log-file", "-"] else []

/-! ## Theorems -/

/-- Claim C1: for every decoded response envelope, the command
operation dispatches on the class field: class return yields exactly
the decoded value without raising, regardless of the notifications
content; class failure, error or exception raises the corresponding
kind (Failure, Error, MerlinException) whose payload equals the
envelope value, for any payload shape. -/
theorem C1_return_and_raise_dispatch (fs : List (String × JVal)) (v : JVal)
    (ns : List JVal)
    (hv : jget fs "value" = some v)
    (hn : jget fs "notifications" = some (JVal.jarr ns)) :
    (jget fs "class" = some (JVal.jstr "return") →
      command_dispatch (JVal.jobj fs) = CmdOutcome.ret v)
    ∧ (jget fs "class" = some (JVal.jstr "failure") →
      command_dispatch (JVal.jobj fs) = CmdOutcome.failureRaised v)
    ∧ (jget fs "class" = some (JVal.jstr "error") →
      command_dispatch (JVal.jobj fs) = CmdOutcome.errorRaised v)
    ∧ (jget fs "class" = some (JVal.jstr "exception") →
      command_dispatch (JVal.jobj fs) = CmdOutcome.merlinExceptionRaised v) := by
  refine ⟨fun hc => ?_, fun hc => ?_, fun hc => ?_, fun hc => ?_⟩ <;>
    simp [command_dispatch, hc, hv, hn, jIterable]

/-- Claim C1 witness: the dispatch evaluated on two concrete
envelopes, one returning and one failing. -/
theorem C1_dispatch_witness :
    command_dispatch (JVal.jobj [("class", JVal.jstr "return"),
        ("value", JVal.jint 7), ("notifications", JVal.jarr [])])
      = CmdOutcome.ret (JVal.jint 7)
    ∧ command_dispatch (JVal.jobj [("class", JVal.jstr "failure"),
        ("value", JVal.null), ("notifications", JVal.jarr [JVal.jstr "note"])])
      = CmdOutcome.failureRaised JVal.null := by
  constructor
  · exact (C1_return_and_raise_dispatch _ (JVal.jint 7) []
      (by decide) (by decide)).1 (by decide)
  · exact (C1_return_and_raise_dispatch _ JVal.null [JVal.jstr "note"]
      (by decide) (by decide)).2.1 (by decide)

/-- Claim C2 counterexample: on standard output text that is not valid
JSON the command operation raises the generic decode error of the JSON
library, not a classified ProtocolError kind; no such kind exists in
the source. -/
theorem C2_generic_parse_crash :
    command_of_output "merlin: command not found" = CmdOutcome.jsonDecodeError := by
  decide

/-- Claim C2 amended: for every raw standard output text that is not
valid JSON, the command operation raises the generic JSONDecodeError
of json.loads, and an envelope missing the class field raises the
generic KeyError of the subscript; both propagate uncaught, the source
defining no ProtocolError kind. -/
theorem C2_amended_json_error (raw : String) (fs : List (String × JVal)) :
    (json_loads raw = none → command_of_output raw = CmdOutcome.jsonDecodeError)
    ∧ (jget fs "class" = none →
        command_dispatch (JVal.jobj fs) = CmdOutcome.keyErrorRaised "class") := by
  constructor
  · intro h
    simp [command_of_output, h]
  · intro h
    simp [command_dispatch, h]

/-- Claim C2 amended witness: the amended statement evaluated on the
empty output text and on an envelope with no class field. -/
theorem C2_amended_witness :
    command_of_output "" = CmdOutcome.jsonDecodeError
    ∧ command_dispatch (JVal.jobj [("value", JVal.jint 1)])
      = CmdOutcome.keyErrorRaised "class" := by
  have h := C2_amended_json_error "" [("value", JVal.jint 1)]
  exact ⟨h.1 (by decide), h.2 (by decide)⟩

/-- Claim C4: the mutating operations are meant to update the
configuration store and return nothing without invoking the external
tool, and set_packages does, but add_build_path and add_source_path
instead raise AttributeError from the access self.view.settings.set,
the parentheses of the settings call being missing, and never write
the store. -/
theorem C4_add_build_path_attribute_error :
    add_build_path
        { packages := none, buildpath := some ["/lib"],
          sourcepath := none, extensions := some [] } "/opt/lib"
      = Except.error (PyExc.attributeError "function object has no attribute set")
    ∧ add_source_path
        { packages := none, buildpath := none,
          sourcepath := none, extensions := none } "/opt/src"
      = Except.error (PyExc.attributeError "function object has no attribute set")
    ∧ set_packages
        { packages := none, buildpath := some ["/lib"],
          sourcepath := none, extensions := some [] } ["core"]
      = { packages := some ["core"], buildpath := some ["/lib"],
          sourcepath := none, extensions := some [] } := by
  exact ⟨rfl, rfl, rfl⟩

/-- Claim C8: the complete at cursor scenario with prefix Li at
position (10,3), packages core and no extensions yields an argument
list containing the expected tokens in relative order. -/
theorem C8_complete_scenario :
    List.Sublist
      ["complete-prefix", "-position", "10:3", "-prefix", "Li", "-doc", "n",
        "-package", "core"]
      (complete_cursor_cmdline none JVal.null "Li" 10 3 (some "main.ml")
        [] ["core"] [] [] [] false [] []).2 := by
  decide

/-- Claim C9 counterexample: a mapping without the line key is a shape
other than the accepted ones, yet fmtpos raises KeyError from the
subscript, not the InvalidArgument ValueError. -/
theorem C9_keyerror_not_invalid_argument :
    fmtpos (PosArg.pydict []) = FmtRes.keyError "line"
    ∧ FmtRes.keyError "line" ≠ FmtRes.valueError fmtpos_msg := by
  constructor
  · rfl
  · decide

/-- Claim C9 amended: fmtpos is pure and total on its accepted shapes:
a mapping with line and col keys and an ordered pair both encode to
line:col and None encodes to the literal end; a non mapping, non
sequence, non None value fails with the InvalidArgument ValueError,
but a mapping missing line or col fails with KeyError and a sequence
of length other than two fails with the unpacking ValueError. -/
theorem C9_amended_fmtpos (line col : Int) (fs : List (String × Int))
    (xs : List Int) :
    fmtpos PosArg.pynone = FmtRes.ok "end"
    ∧ (fs.lookup "line" = some line → fs.lookup "col" = some col →
        fmtpos (PosArg.pydict fs) = FmtRes.ok (toString line ++ ":" ++ toString col))
    ∧ fmtpos (PosArg.pyseq [line, col]) = FmtRes.ok (toString line ++ ":" ++ toString col)
    ∧ fmtpos PosArg.pyother = FmtRes.valueError fmtpos_msg
    ∧ (fs.lookup "line" = none → fmtpos (PosArg.pydict fs) = FmtRes.keyError "line")
    ∧ (fs.lookup "line" = some line → fs.lookup "col" = none →
        fmtpos (PosArg.pydict fs) = FmtRes.keyError "col")
    ∧ (xs.length ≠ 2 → fmtpos (PosArg.pyseq xs) = FmtRes.valueError "unpack") := by
  refine ⟨rfl, fun h1 h2 => ?_, rfl, rfl, fun h1 => ?_, fun h1 h2 => ?_, fun h => ?_⟩
  · simp [fmtpos, h1, h2]
  · simp [fmtpos, h1]
  · simp [fmtpos, h1, h2]
  · match xs with
    | [] => rfl
    | [_] => rfl
    | [_, _] => exact absurd rfl h
    | _ :: _ :: _ :: _ => rfl

/-- Claim C9 amended witness: the amended statement evaluated on the
dict shape from the spec and on a one element sequence. -/
theorem C9_fmtpos_witness :
    fmtpos (PosArg.pydict [("line", 12), ("col", 4)]) = FmtRes.ok "12:4"
    ∧ fmtpos (PosArg.pyseq [5]) = FmtRes.valueError "unpack" := by
  constructor
  · exact (C9_amended_fmtpos 12 4 [("line", 12), ("col", 4)] []).2.1
      (by decide) (by decide)
  · exact (C9_amended_fmtpos 0 0 [] [5]).2.2.2.2.2.2 (by decide)

/-- Claim C10: an envelope whose class is a string other than return,
failure, error or exception makes the command operation fall off the
dispatch and return None without raising, after logging the
notifications. -/
theorem C10_unrecognized_class_none (fs : List (String × JVal)) (s : String)
    (v : JVal) (ns : List JVal)
    (hc : jget fs "class" = some (JVal.jstr s))
    (hv : jget fs "value" = some v)
    (hn : jget fs "notifications" = some (JVal.jarr ns))
    (h1 : s ≠ "return") (h2 : s ≠ "failure") (h3 : s ≠ "error")
    (h4 : s ≠ "exception") :
    command_dispatch (JVal.jobj fs) = CmdOutcome.retNone := by
  simp [command_dispatch, hc, hv, hn, jIterable, h1, h2, h3, h4]

/-- Claim C10 witness: the dispatch evaluated on an envelope with the
unrecognized class ok. -/
theorem C10_unrecognized_witness :
    command_dispatch (JVal.jobj [("class", JVal.jstr "ok"),
        ("value", JVal.jint 1), ("notifications", JVal.jarr [])])
      = CmdOutcome.retNone := by
  exact C10_unrecognized_class_none _ "ok" (JVal.jint 1) []
    (by decide) (by decide) (by decide)
    (by decide) (by decide) (by decide) (by decide)

/-- A truthy tracking key whose resolution differs from the stored one
resets the counter to zero and stores the resolved key. -/
theorem track_verbosity_fresh (st : VState) (key : JVal) (args : List String)
    (hk : jTruthy key = true)
    (hne : vKey st ≠ some (resolve_key key args)) :
    track_verbosity st key args
      = (some (resolve_key key args, 0), ["-verbosity", "0"]) := by
  unfold track_verbosity
  rcases st with _ | ⟨k0, n⟩
  · simp only [hk, if_true]
    rfl
  · have hk0 : ¬ k0 = resolve_key key args := by
      intro h
      exact hne (by simp [vKey, h])
    simp only [hk, if_true, hk0, if_false]
    rfl

/-- A truthy tracking key whose resolution equals the stored one
increments the counter. -/
theorem track_verbosity_again (k : JVal) (n : Int) (key : JVal)
    (args : List String) (hk : jTruthy key = true)
    (heq : resolve_key key args = k) :
    track_verbosity (some (k, n)) key args
      = (some (k, n + 1), ["-verbosity", toString (n + 1)]) := by
  unfold track_verbosity
  simp [hk, heq]

/-- Claim C5: two successive calls tracking a key whose resolution
differs from the stored one emit verbosity counts 0 then 1 and store
the resolved key, covering both the reset on a key change and the
increment while the key is unchanged; a falsy tracking key emits no
tokens and leaves the counter alone. -/
theorem C5_verbosity_tracking (st : VState) (k b : JVal) (args : List String) :
    (jTruthy k = true → vKey st ≠ some (resolve_key k args) →
      (track_verbosity st k args).2 = ["-verbosity", "0"]
      ∧ vKey (track_verbosity st k args).1 = some (resolve_key k args)
      ∧ (track_verbosity (track_verbosity st k args).1 k args).2
          = ["-verbosity", "1"])
    ∧ (jTruthy b = false → track_verbosity st b args = (st, [])) := by
  constructor
  · intro hk hne
    rw [track_verbosity_fresh st k args hk hne]
    refine ⟨rfl, rfl, ?_⟩
    rw [track_verbosity_again (resolve_key k args) 0 k args hk rfl]
    rfl
  · intro hb
    unfold track_verbosity
    simp [hb]

/-- Claim C5 witness: the tracked calls evaluated from a fresh session
with a concrete key, and a None key emitting nothing. -/
theorem C5_verbosity_witness :
    (track_verbosity none (JVal.jstr "q") []).2 = ["-verbosity", "0"]
    ∧ (track_verbosity (track_verbosity none (JVal.jstr "q") []).1
        (JVal.jstr "q") []).2 = ["-verbosity", "1"]
    ∧ track_verbosity none JVal.null [] = (none, []) := by
  have h := C5_verbosity_tracking none (JVal.jstr "q") JVal.null []
  obtain ⟨h1, h2⟩ := h
  obtain ⟨ha, _, hc⟩ := h1 (by decide) (by simp [vKey])
  exact ⟨ha, hc, h2 (by decide)⟩

/-- The history update keeps the length within five. -/
theorem store_last_command_length_le (hist : List HEntry) (c : List String)
    (r e : Option String) (h : hist.length ≤ 5) :
    (store_last_command hist c r e).length ≤ 5 := by
  unfold store_last_command
  split
  · rcases hist with _ | ⟨a, t⟩
    · simp
    · simpa using h
  · split
    · rename_i hlen
      simp only [List.length_dropLast, List.length_cons]
      omega
    · rename_i hlen
      simp only [List.length_cons] at hlen ⊢
      omega

/-- Claim C6: the command history never exceeds five entries after any
sequence of recorded commands; a record arriving at a full history
whose front is not the pending record of the same command evicts the
oldest entry; the freshest record is always the front entry; a pending
front record of the same command is updated in place instead of a
duplicate being inserted. -/
theorem C6_history_invariants (hist : List HEntry) (c : List String)
    (r e : Option String) :
    (hist.length ≤ 5 → (store_last_command hist c r e).length ≤ 5)
    ∧ (∀ ops : List (List String × Option String × Option String),
        (ops.foldl (fun h o => store_last_command h o.1 o.2.1 o.2.2)
            ([] : List HEntry)).length ≤ 5)
    ∧ (hist.length = 5 → hist.head? ≠ some (c, none, none) →
        store_last_command hist c r e = (c, r, e) :: hist.dropLast)
    ∧ (store_last_command hist c r e).head? = some (c, r, e)
    ∧ (hist.head? = some (c, none, none) →
        store_last_command hist c r e = (c, r, e) :: hist.tail) := by
  refine ⟨store_last_command_length_le hist c r e, ?_, ?_, ?_, ?_⟩
  · intro ops
    have key : ∀ (os : List (List String × Option String × Option String))
        (h0 : List HEntry), h0.length ≤ 5 →
        (os.foldl (fun h o => store_last_command h o.1 o.2.1 o.2.2) h0).length ≤ 5 := by
      intro os
      induction os with
      | nil => intro h0 hh; simpa using hh
      | cons o os ih =>
        intro h0 hh
        exact ih _ (store_last_command_length_le _ _ _ _ hh)
    exact key ops [] (by simp)
  · intro hlen hhead
    unfold store_last_command
    rw [if_neg hhead, if_pos (by simp [hlen])]
    rcases hist with _ | ⟨a, t⟩
    · simp at hlen
    · simp [List.dropLast]
  · unfold store_last_command
    split
    · rfl
    · split
      · rcases hist with _ | ⟨a, t⟩
        · rename_i hlen
          simp at hlen
        · simp [List.dropLast]
      · rfl
  · intro hhead
    unfold store_last_command
    rw [if_pos hhead]

/-- Claim C6 witness: six distinct commands starting from the empty
history leave five entries, evicting the first, and a completed result
overwrites the pending front record in place. -/
theorem C6_history_witness :
    store_last_command [(["e"], none, none), (["d"], none, none),
        (["c"], none, none), (["b"], none, none), (["a"], none, none)]
        ["f"] none none
      = [(["f"], none, none), (["e"], none, none), (["d"], none, none),
        (["c"], none, none), (["b"], none, none)]
    ∧ store_last_command [(["f"], none, none), (["e"], none, none)]
        ["f"] (some "resp") (some "")
      = [(["f"], some "resp", some ""), (["e"], none, none)] := by
  constructor
  · have h := (C6_history_invariants [(["e"], none, none), (["d"], none, none),
      (["c"], none, none), (["b"], none, none), (["a"], none, none)]
      ["f"] none none).2.2.1 (by decide) (by decide)
    rw [h]
    decide
  · have h := (C6_history_invariants [(["f"], none, none), (["e"], none, none)]
      ["f"] (some "resp") (some "")).2.2.2.2 (by decide)
    rw [h]
    decide

/-- Recording a pending command always leaves its record at the front
of the history. -/
theorem store_pending_head (hist : List HEntry) (c : List String) :
    (store_last_command hist c none none).head? = some (c, none, none) := by
  unfold store_last_command
  split
  · rfl
  · split
    · rcases hist with _ | ⟨a, t⟩
      · rename_i hlen
        simp at hlen
      · simp [List.dropLast]
    · rfl

/-- Every entry of an updated history is the new record or one of the
old entries. -/
theorem mem_store_last_command (hist : List HEntry) (c : List String)
    (r e : Option String) (x : HEntry)
    (hx : x ∈ store_last_command hist c r e) : x = (c, r, e) ∨ x ∈ hist := by
  unfold store_last_command at hx
  split at hx
  · rcases List.mem_cons.mp hx with h | h
    · exact Or.inl h
    · exact Or.inr (List.mem_of_mem_tail h)
  · split at hx
    · have hx2 : x ∈ (c, r, e) :: hist :=
        (List.dropLast_sublist ((c, r, e) :: hist)).subset hx
      rcases List.mem_cons.mp hx2 with h | h
      · exact Or.inl h
      · exact Or.inr h
    · rcases List.mem_cons.mp hx with h | h
      · exact Or.inl h
      · exact Or.inr h

/-- Claim C3 counterexample: a failed spawn starting from the empty
history leaves a pending entry behind, so the history is not left
unmodified. -/
theorem C3_history_modified :
    (exec_model [] "ocamlmerlin" ["server", "errors"] "" ProcOutcome.spawnFail).1
      = [(["ocamlmerlin", "server", "errors"], none, none)]
    ∧ ([(["ocamlmerlin", "server", "errors"], none, none)] : List HEntry) ≠ [] := by
  constructor
  · decide
  · decide

/-- Claim C3 amended: when the tool binary is absent the operation
raises the spawn failure, which propagates to the caller; the command
history is modified by the failed spawn: it gains the pending record
of the command at the front, and it still holds no entry with a
response for that command when it held none before. -/
theorem C3_amended_spawn_failure (hist : List HEntry) (binary inp : String)
    (arguments : List String) :
    (exec_model hist binary arguments inp ProcOutcome.spawnFail).2 = ExecRes.oserror
    ∧ (exec_model hist binary arguments inp ProcOutcome.spawnFail).1
        = store_last_command hist (binary :: arguments) none none
    ∧ (exec_model hist binary arguments inp ProcOutcome.spawnFail).1.head?
        = some (binary :: arguments, none, none)
    ∧ (∀ resp errs, (binary :: arguments, some resp, errs) ∉ hist →
        (binary :: arguments, some resp, errs)
          ∉ (exec_model hist binary arguments inp ProcOutcome.spawnFail).1) := by
  refine ⟨rfl, rfl, store_pending_head hist (binary :: arguments), ?_⟩
  intro resp errs hnot hmem
  rcases mem_store_last_command hist (binary :: arguments) none none _ hmem with h | h
  · exact Option.noConfusion (congrArg (fun p => p.2.1) h)
  · exact hnot h

/-- Claim C3 amended witness: the failed spawn evaluated from the
empty history. -/
theorem C3_spawn_witness :
    (exec_model [] "ocamlmerlin" ["server", "errors"] "x" ProcOutcome.spawnFail).2
      = ExecRes.oserror
    ∧ (["ocamlmerlin", "server", "errors"], some "out", some "err")
        ∉ (exec_model [] "ocamlmerlin" ["server", "errors"] "x"
            ProcOutcome.spawnFail).1 := by
  have h := C3_amended_spawn_failure [] "ocamlmerlin" "x" ["server", "errors"]
  exact ⟨h.1, h.2.2.2 "out" (some "err") (by simp)⟩

/-- A flag and value loop over a list extends the accumulator with the
corresponding token group. -/
theorem foldl_extend_eq (flag : String) (l acc : List String) :
    l.foldl (fun a x => a ++ [flag, x]) acc = acc ++ tokGroup flag l := by
  induction l generalizing acc with
  | nil => simp [tokGroup]
  | cons x xs ih => simp [tokGroup, ih]

/-- The built command line is exactly the concatenation of the groups
in the order of the spec: mode and verb tokens, filename, verbosity,
extensions, packages, project descriptors, build paths, source paths,
debug log flag, global flags, call flags. -/
theorem command_cmdline_eq (st : VState) (args : List String)
    (filename : Option String)
    (exts pkgs dms bps sps : List String) (debug : Bool)
    (flags oflags : List String) (track : JVal) :
    command_cmdline st args filename exts pkgs dms bps sps debug flags oflags track
      = ((track_verbosity st track args).1,
        ["server"] ++ args ++ fileGroup filename
          ++ (track_verbosity st track args).2
          ++ tokGroup "-extension" exts ++ tokGroup "-package" pkgs
          ++ tokGroup "-dot-merlin" dms ++ tokGroup "-build-path" bps
          ++ tokGroup "-source-path" sps ++ debugGroup debug
          ++ flags ++ oflags) := by
  unfold command_cmdline
  simp only [foldl_extend_eq, fileGroup, debugGroup, List.append_assoc]

/-- Claim C7: the invocation builder emits the argument groups in the
fixed order of the spec, and two successive calls with identical
inputs produce identical argument lists except for the verbosity count
field: identical outright when no tracking key is supplied, and
differing only in the count token, which increments, when tracking is
enabled. -/
theorem C7_builder_order_stable (st : VState) (args : List String)
    (filename : Option String)
    (exts pkgs dms bps sps : List String) (debug : Bool)
    (flags oflags : List String) (track : JVal) :
    (command_cmdline st args filename exts pkgs dms bps sps debug flags oflags track
      = ((track_verbosity st track args).1,
        ["server"] ++ args ++ fileGroup filename
          ++ (track_verbosity st track args).2
          ++ tokGroup "-extension" exts ++ tokGroup "-package" pkgs
          ++ tokGroup "-dot-merlin" dms ++ tokGroup "-build-path" bps
          ++ tokGroup "-source-path" sps ++ debugGroup debug
          ++ flags ++ oflags))
    ∧ (jTruthy track = false →
        (command_cmdline
            (command_cmdline st args filename exts pkgs dms bps sps debug flags
              oflags track).1
            args filename exts pkgs dms bps sps debug flags oflags track).2
          = (command_cmdline st args filename exts pkgs dms bps sps debug flags
              oflags track).2)
    ∧ (jTruthy track = true →
        ∃ n : Int,
          (command_cmdline st args filename exts pkgs dms bps sps debug flags
              oflags track).2
            = ["server"] ++ args ++ fileGroup filename
              ++ ["-verbosity", toString n]
              ++ tokGroup "-extension" exts ++ tokGroup "-package" pkgs
              ++ tokGroup "-dot-merlin" dms ++ tokGroup "-build-path" bps
              ++ tokGroup "-source-path" sps ++ debugGroup debug
              ++ flags ++ oflags
          ∧ (command_cmdline
                (command_cmdline st args filename exts pkgs dms bps sps debug
                  flags oflags track).1
                args filename exts pkgs dms bps sps debug flags oflags track).2
            = ["server"] ++ args ++ fileGroup filename
              ++ ["-verbosity", toString (n + 1)]
              ++ tokGroup "-extension" exts ++ tokGroup "-package" pkgs
              ++ tokGroup "-dot-merlin" dms ++ tokGroup "-build-path" bps
              ++ tokGroup "-source-path" sps ++ debugGroup debug
              ++ flags ++ oflags) := by
  refine ⟨command_cmdline_eq st args filename exts pkgs dms bps sps debug flags
    oflags track, ?_, ?_⟩
  · intro hf
    have hst : track_verbosity st track args = (st, []) := by
      unfold track_verbosity
      simp [hf]
    simp only [command_cmdline_eq, hst]
  · intro ht
    have h1 : ∃ n : Int, track_verbosity st track args
        = (some (resolve_key track args, n), ["-verbosity", toString n]) := by
      rcases st with _ | ⟨k0, c⟩
      · exact ⟨0, track_verbosity_fresh none track args ht (by simp [vKey])⟩
      · by_cases hk : k0 = resolve_key track args
        · refine ⟨c + 1, ?_⟩
          rw [hk]
          exact track_verbosity_again (resolve_key track args) c track args ht rfl
        · refine ⟨0, ?_⟩
          refine track_verbosity_fresh (some (k0, c)) track args ht ?_
          simp only [vKey, Option.map_some]
          intro h
          exact hk (Option.some.inj h)
    obtain ⟨n, hn⟩ := h1
    have h2 : track_verbosity (some (resolve_key track args, n)) track args
        = (some (resolve_key track args, n + 1), ["-verbosity", toString (n + 1)]) :=
      track_verbosity_again (resolve_key track args) n track args ht rfl
    refine ⟨n, ?_, ?_⟩
    · rw [command_cmdline_eq, hn]
    · rw [command_cmdline_eq, command_cmdline_eq, hn, h2]

/-- Claim C7 witness: the order equality, the stability of an
untracked call and the incrementing count of a tracked call evaluated
on concrete inputs. -/
theorem C7_builder_witness :
    (command_cmdline
        (command_cmdline none ["errors"] (some "a.ml") ["lwt"] ["core"] []
          ["_b"] [] true ["-g"] ["-x"] JVal.null).1
        ["errors"] (some "a.ml") ["lwt"] ["core"] [] ["_b"] [] true ["-g"]
        ["-x"] JVal.null).2
      = (command_cmdline none ["errors"] (some "a.ml") ["lwt"] ["core"] []
          ["_b"] [] true ["-g"] ["-x"] JVal.null).2
    ∧ (∃ n : Int,
        (command_cmdline none ["errors"] none [] [] [] [] [] false [] []
            (JVal.jbool true)).2
          = ["server"] ++ ["errors"] ++ fileGroup none
            ++ ["-verbosity", toString n]
            ++ tokGroup "-extension" [] ++ tokGroup "-package" []
            ++ tokGroup "-dot-merlin" [] ++ tokGroup "-build-path" []
            ++ tokGroup "-source-path" [] ++ debugGroup false ++ [] ++ []
        ∧ (command_cmdline
              (command_cmdline none ["errors"] none [] [] [] [] [] false [] []
                (JVal.jbool true)).1
              ["errors"] none [] [] [] [] [] false [] [] (JVal.jbool true)).2
          = ["server"] ++ ["errors"] ++ fileGroup none
            ++ ["-verbosity", toString (n + 1)]
            ++ tokGroup "-extension" [] ++ tokGroup "-package" []
            ++ tokGroup "-dot-merlin" [] ++ tokGroup "-build-path" []
            ++ tokGroup "-source-path" [] ++ debugGroup false ++ [] ++ []) := by
  constructor
  · exact (C7_builder_order_stable none ["errors"] (some "a.ml") ["lwt"] ["core"]
      [] ["_b"] [] true ["-g"] ["-x"] JVal.null).2.1 (by decide)
  · exact (C7_builder_order_stable none ["errors"] none [] [] [] [] [] false []
      [] (JVal.jbool true)).2.2 (by decide)

end SublimeMerlin
